import Mathlib

/-!
Verification of the MarsArchitect habitat-designer core
(`src/components/habitat-designer.tsx`) against its design specification.

The placement-and-collision model and the derived-metrics engine are
shallow-embedded: JavaScript numbers become rationals (`ℚ`), the React
state triple (`modules`, `selectedModuleId`, `collisionError`) becomes an
explicit `DesignerState` record, and each mutating handler becomes a total
function on that record.  Rotation components are stored in units of π
radians (the source stores `degrees * Math.PI / 180`; we store
`degrees / 180`, a faithful bijective change of units — rotation is never
read by any computation other than display).  The `localStorage` record is
modelled as a value of type `SavedDesign`; JSON serialization is the
identity on that record.
-/

namespace MarsArchitect

/-- The fixed enumeration of module types (source line 34). -/
inductive ModuleType
  | dormitory
  | eclss
  | lab
  | storage
  | airlock
  | greenhouse
deriving DecidableEq, Repr

/-- The string key used for a module type in generated ids
(template literal interpolation of the union value). -/
def typeKey : ModuleType → String
  | .dormitory => "dormitory"
  | .eclss => "eclss"
  | .lab => "lab"
  | .storage => "storage"
  | .airlock => "airlock"
  | .greenhouse => "greenhouse"

/-- Primitive shape tag of a module type. -/
inductive Geometry
  | box
  | cylinder
deriving DecidableEq, Repr

/-- A point or Euler-angle triple `[number, number, number]`. -/
structure Vec3 where
  x : ℚ
  y : ℚ
  z : ℚ
deriving DecidableEq, Repr

/-- An axis name `"x" | "y" | "z"` as used by the position/rotation handlers. -/
inductive Axis
  | x
  | y
  | z
deriving DecidableEq, Repr

/-- Assignment `newPosition[axisIndex] = value` — replace one component of a triple. -/
def Vec3.set : Vec3 → Axis → ℚ → Vec3
  | v, .x, a => { v with x := a }
  | v, .y, a => { v with y := a }
  | v, .z, a => { v with z := a }

/-- One row of the static `MODULE_SPECS` table (source lines 48-65). -/
structure ModuleSpec where
  name : String
  baseCost : ℚ
  baseMass : ℚ
  baseVolume : ℚ
  color : String
  geometry : Geometry
deriving DecidableEq, Repr

/-- Static module-type specification table `MODULE_SPECS` (source lines 48-65). -/
def MODULE_SPECS : ModuleType → ModuleSpec
  | .dormitory => { name := "Dormitory", baseCost := 45, baseMass := 8000,
                    baseVolume := 120, color := "#3b82f6", geometry := .cylinder }
  | .eclss => { name := "ECLSS", baseCost := 150, baseMass := 12000,
                baseVolume := 80, color := "#10b981", geometry := .box }
  | .lab => { name := "Laboratory", baseCost := 85, baseMass := 10000,
              baseVolume := 150, color := "#8b5cf6", geometry := .box }
  | .storage => { name := "Storage", baseCost := 25, baseMass := 5000,
                  baseVolume := 60, color := "#f59e0b", geometry := .box }
  | .airlock => { name := "Airlock", baseCost := 35, baseMass := 6000,
                  baseVolume := 40, color := "#ef4444", geometry := .cylinder }
  | .greenhouse => { name := "Greenhouse", baseCost := 65, baseMass := 9000,
                     baseVolume := 100, color := "#22c55e", geometry := .box }

/-- A placed module instance, `interface ModuleData` (source lines 36-45).
`rotation` components are stored in units of π radians. -/
structure ModuleData where
  id : String
  type : ModuleType
  position : Vec3
  rotation : Vec3
  scale : ℚ
  cost : ℚ
  mass : ℚ
  volume : ℚ
deriving DecidableEq, Repr

/-- JavaScript `Math.abs` on rationals, written executably. -/
def ratAbs (q : ℚ) : ℚ :=
  if q < 0 then -q else q

/-- Function `checkAABBCollision` (source lines 68-83).  `size` is the nominal edge
length of the bounding cube; every call site uses the default `size = 2`. -/
def checkAABBCollision (pos1 : Vec3) (scale1 : ℚ) (pos2 : Vec3) (scale2 : ℚ)
    (size : ℚ) : Bool :=
  let halfSize1 := size * scale1 / 2
  let halfSize2 := size * scale2 / 2
  decide (ratAbs (pos1.x - pos2.x) < halfSize1 + halfSize2) &&
  decide (ratAbs (pos1.y - pos2.y) < halfSize1 + halfSize2) &&
  decide (ratAbs (pos1.z - pos2.z) < halfSize1 + halfSize2)

/-- The collision predicate applied to two placed modules, as every call
site applies it: positions and scales only, with the default size 2. -/
def collides (m1 m2 : ModuleData) : Bool :=
  checkAABBCollision m1.position m1.scale m2.position m2.scale 2

/-- The component state owned by `HabitatDesigner` that the core mutates:
the `modules`, `selectedModuleId` and `collisionError` `useState` cells
(source lines 139-141). -/
structure DesignerState where
  modules : List ModuleData
  selectedModuleId : Option String
  collisionError : Option String
deriving DecidableEq, Repr

/-- The collision notice set by every failing mutation (source lines 214, 245, 275). -/
def collisionMsg : String := "Collision Error! Geometry overlap not permitted."

/-- Constant `COST_PER_KG_TO_MARS` (source line 148). -/
def COST_PER_KG_TO_MARS : ℚ := 75000

/-- Constant `BASE_HABITAT_MASS` (source line 149). -/
def BASE_HABITAT_MASS : ℚ := 10000

/-- Projection `totalHardwareCost` (source lines 151-153). -/
def totalHardwareCost (modules : List ModuleData) : ℚ :=
  modules.foldl (fun sum m => sum + m.cost) 0

/-- Projection `totalMass` (source lines 155-157). -/
def totalMass (modules : List ModuleData) : ℚ :=
  BASE_HABITAT_MASS + modules.foldl (fun sum m => sum + m.mass) 0

/-- Projection `totalLaunchCost` (source lines 159-161), converted to millions. -/
def totalLaunchCost (modules : List ModuleData) : ℚ :=
  totalMass modules * COST_PER_KG_TO_MARS / 1000000

/-- Projection `totalCost` (source line 163). -/
def totalCost (modules : List ModuleData) : ℚ :=
  totalHardwareCost modules + totalLaunchCost modules

/-- Projection `totalVolume` (source lines 165-167). -/
def totalVolume (modules : List ModuleData) : ℚ :=
  modules.foldl (fun sum m => sum + m.volume) 0

/-- The persisted record `{ modules, timestamp }` (source lines 170-173). -/
structure SavedDesign where
  modules : List ModuleData
  timestamp : String
deriving DecidableEq, Repr

/-- Function `saveDesign` (source lines 169-176): serializes the current modules with
a timestamp into the single save slot. -/
def saveDesign (st : DesignerState) (timestamp : String) : SavedDesign :=
  { modules := st.modules, timestamp := timestamp }

/-- Function `loadDesign` (source lines 178-192): when a record is present, replaces
the in-memory modules wholesale and clears the selection; when the slot is
empty, leaves the state untouched. -/
def loadDesign (st : DesignerState) (saved : Option SavedDesign) : DesignerState :=
  match saved with
  | some d => { st with modules := d.modules, selectedModuleId := none }
  | none => st

/-- The id generated for a fresh module: the template literal
`\x7b type \x7d-\x7b Date.now() \x7d` (source line 198), with the clock
reading passed in as `now`. -/
def mkId (ty : ModuleType) (now : Nat) : String :=
  typeKey ty ++ "-" ++ toString now

/-- The fresh module literal built by `addModule` (source lines 196-206):
placed at the origin, unrotated, at scale 1, with the type's base
cost/mass/volume and the timestamp-derived id. -/
def freshModule (ty : ModuleType) (now : Nat) : ModuleData :=
  { id := mkId ty now, type := ty, position := ⟨0, 0, 0⟩, rotation := ⟨0, 0, 0⟩,
    scale := 1, cost := (MODULE_SPECS ty).baseCost,
    mass := (MODULE_SPECS ty).baseMass, volume := (MODULE_SPECS ty).baseVolume }

/-- Operation `addModule` (source lines 195-221). -/
def addModule (st : DesignerState) (ty : ModuleType) (now : Nat) : DesignerState :=
  let newModule := freshModule ty now
  let hasCollision := st.modules.any fun m =>
    checkAABBCollision newModule.position newModule.scale m.position m.scale 2
  if hasCollision then
    { st with collisionError := some collisionMsg }
  else
    { st with modules := st.modules ++ [newModule],
              selectedModuleId := some newModule.id }

/-- Operation `deleteModule` (source lines 224-229). -/
def deleteModule (st : DesignerState) (targetId : String) : DesignerState :=
  { st with
    modules := st.modules.filter fun m => decide (m.id ≠ targetId),
    selectedModuleId :=
      if st.selectedModuleId = some targetId then none else st.selectedModuleId }

/-- The `selectedModule` lookup (source line 145). -/
def findSelected (st : DesignerState) : Option ModuleData :=
  st.modules.find? fun m => decide (some m.id = st.selectedModuleId)

/-- Operation `updateModulePosition` (source lines 232-251). -/
def updateModulePosition (st : DesignerState) (axis : Axis) (value : ℚ) : DesignerState :=
  match findSelected st with
  | none => st
  | some sel =>
    let newPosition := sel.position.set axis value
    let hasCollision := st.modules.any fun m =>
      decide (m.id ≠ sel.id) &&
        checkAABBCollision newPosition sel.scale m.position m.scale 2
    if hasCollision then
      { st with collisionError := some collisionMsg }
    else
      { st with modules := st.modules.map fun m =>
          if m.id = sel.id then { m with position := newPosition } else m }

/-- Operation `updateModuleRotation` (source lines 254-263): degrees are converted to
radians (`degrees * π / 180`, stored here in π-units as `degrees / 180`);
no collision check. -/
def updateModuleRotation (st : DesignerState) (axis : Axis) (degrees : ℚ) : DesignerState :=
  match findSelected st with
  | none => st
  | some sel =>
    let radians := degrees / 180
    let newRotation := sel.rotation.set axis radians
    { st with modules := st.modules.map fun m =>
        if m.id = sel.id then { m with rotation := newRotation } else m }

/-- Operation `updateModuleScale` (source lines 266-296). -/
def updateModuleScale (st : DesignerState) (scale : ℚ) : DesignerState :=
  match findSelected st with
  | none => st
  | some sel =>
    let hasCollision := st.modules.any fun m =>
      decide (m.id ≠ sel.id) &&
        checkAABBCollision sel.position scale m.position m.scale 2
    if hasCollision then
      { st with collisionError := some collisionMsg }
    else
      let spec := MODULE_SPECS sel.type
      let volumeFactor := scale ^ 3
      { st with modules := st.modules.map fun m =>
          if m.id = sel.id then
            { m with scale := scale,
                     cost := spec.baseCost * volumeFactor,
                     mass := spec.baseMass * volumeFactor,
                     volume := spec.baseVolume * volumeFactor }
          else m }

/-- Result record of `radiationShielding` (source lines 298-303). -/
structure ShieldingResult where
  score : ℚ
  required : ℚ
  pass : Bool
deriving DecidableEq, Repr

/-- Check `radiationShielding` (source lines 298-303). -/
def radiationShielding (modules : List ModuleData) : ShieldingResult :=
  let shieldingScore := (modules.length : ℚ) * 15 + totalMass modules / 1000
  let required : ℚ := 200
  { score := shieldingScore, required := required,
    pass := decide (shieldingScore ≥ required) }

/-- Result record of `structuralLoad` (source lines 305-310). -/
structure LoadResult where
  pressure : ℚ
  limit : ℚ
  pass : Bool
deriving DecidableEq, Repr

/-- Check `structuralLoad` (source lines 305-310); `1.5` is `3/2`. -/
def structuralLoad (modules : List ModuleData) : LoadResult :=
  let pressure := totalMass modules / 100 * (3 / 2)
  let limit : ℚ := 350
  { pressure := pressure, limit := limit, pass := decide (pressure ≤ limit) }

/-- Result record of `nhvCompliance` (source lines 312-316). -/
structure NhvResult where
  actual : ℚ
  required : ℚ
  pass : Bool
deriving DecidableEq, Repr

/-- Check `nhvCompliance` (source lines 312-316); `115.83` is `11583/100`. -/
def nhvCompliance (modules : List ModuleData) : NhvResult :=
  let required : ℚ := 11583 / 100
  { actual := totalVolume modules, required := required,
    pass := decide (totalVolume modules ≥ required) }

/-- JavaScript `Math.round`: round half toward positive infinity. -/
def jsRound (q : ℚ) : ℤ := ⌊q + 1 / 2⌋

/-- The two vehicle labels of the logistics estimate (source line 324). -/
def starshipLabel : String := "Starship HLS Variant"

/-- The alternative vehicle label (source line 324). -/
def aresLabel : String := "Ares V Heavy Lift"

/-- Result record of `logistics` (source lines 318-332). -/
structure LogisticsResult where
  vehicle : String
  launchWindow : String
  secondaryWindow : String
  structureMass : ℤ
  payloadMass : ℤ
  propellantMass : ℤ
  totalDeliveryMass : ℤ
deriving DecidableEq, Repr

/-- Estimate `logistics` (source lines 318-332); `0.6` is `3/5`, `0.4` is `2/5`. -/
def logistics (modules : List ModuleData) : LogisticsResult :=
  let dryMass := totalMass modules
  let propellantMass := dryMass * 4
  let totalDeliveryMass := dryMass + propellantMass
  { vehicle := if totalMass modules > 50000 then starshipLabel else aresLabel,
    launchWindow := "2031 Q1",
    secondaryWindow := "2033 Q3",
    structureMass := jsRound (dryMass * (3 / 5)),
    payloadMass := jsRound (dryMass * (2 / 5)),
    propellantMass := jsRound propellantMass,
    totalDeliveryMass := jsRound totalDeliveryMass }

/-- The Layout non-overlap invariant of spec §3/§4.1: no two modules'
axis-aligned bounding boxes overlap under the collision predicate. -/
def NonOverlap (modules : List ModuleData) : Prop :=
  modules.Pairwise fun m1 m2 => collides m1 m2 = false

instance (modules : List ModuleData) : Decidable (NonOverlap modules) :=
  List.instDecidablePairwise modules

/-- The data-model requirement that ids are unique within a layout
(spec §3: "id: opaque unique identifier"). -/
def NodupIds (modules : List ModuleData) : Prop :=
  (modules.map fun m => m.id).Nodup

instance (modules : List ModuleData) : Decidable (NodupIds modules) :=
  inferInstanceAs (Decidable (List.Nodup _))

/-- The empty initial designer state (source lines 139-141). -/
def initialState : DesignerState :=
  { modules := [], selectedModuleId := none, collisionError := none }

/-- A dormitory instance placed at x = 10 with its base figures. -/
def demoModule : ModuleData :=
  { id := mkId .dormitory 1, type := .dormitory, position := ⟨10, 0, 0⟩,
    rotation := ⟨0, 0, 0⟩, scale := 1, cost := 45, mass := 8000, volume := 120 }

/-- A one-module state with the dormitory selected. -/
def demoState : DesignerState :=
  { modules := [demoModule], selectedModuleId := some demoModule.id,
    collisionError := none }

/-- A dormitory instance sitting at the origin. -/
def demoOrigin : ModuleData :=
  { id := mkId .dormitory 1, type := .dormitory, position := ⟨0, 0, 0⟩,
    rotation := ⟨0, 0, 0⟩, scale := 1, cost := 45, mass := 8000, volume := 120 }

/-- An ECLSS instance at x = 10. -/
def demoFar : ModuleData :=
  { id := mkId .eclss 2, type := .eclss, position := ⟨10, 0, 0⟩,
    rotation := ⟨0, 0, 0⟩, scale := 1, cost := 150, mass := 12000, volume := 80 }

/-- A two-module state: the dormitory at the origin is selected, the ECLSS
module sits at x = 10. -/
def demoTwoState : DesignerState :=
  { modules := [demoOrigin, demoFar], selectedModuleId := some demoOrigin.id,
    collisionError := none }

/-- A storage-module probe with prescribed mass and volume, used to drive
the derived metrics to exact boundary values. -/
def probeModule (m v : ℚ) : ModuleData :=
  { id := mkId .storage 0, type := .storage, position := ⟨0, 0, 0⟩,
    rotation := ⟨0, 0, 0⟩, scale := 1, cost := 25, mass := m, volume := v }

/-- The spec §8 example scenario: add a dormitory, slide it to x = 10, then
add an ECLSS module at the origin. -/
def scenarioState : DesignerState :=
  addModule (updateModulePosition (addModule initialState .dormitory 1) .x 10) .eclss 2

/-! ### Helper lemmas -/

theorem ratAbs_eq_abs (q : ℚ) : ratAbs q = |q| := by
  unfold ratAbs
  split
  · next h => rw [abs_of_neg h]
  · next h => rw [abs_of_nonneg (not_lt.mp h)]

theorem checkAABBCollision_symm (p1 : Vec3) (s1 : ℚ) (p2 : Vec3) (s2 : ℚ) (size : ℚ) :
    checkAABBCollision p1 s1 p2 s2 size = checkAABBCollision p2 s2 p1 s1 size := by
  simp only [checkAABBCollision, ratAbs_eq_abs]
  rw [abs_sub_comm p1.x p2.x, abs_sub_comm p1.y p2.y, abs_sub_comm p1.z p2.z,
      add_comm (size * s1 / 2) (size * s2 / 2)]

theorem collides_symm (m1 m2 : ModuleData) : collides m1 m2 = collides m2 m1 :=
  checkAABBCollision_symm m1.position m1.scale m2.position m2.scale 2

theorem collides_congr (a a' b b' : ModuleData)
    (h1 : a'.position = a.position) (h2 : a'.scale = a.scale)
    (h3 : b'.position = b.position) (h4 : b'.scale = b.scale) :
    collides a' b' = collides a b := by
  simp only [collides, h1, h2, h3, h4]

theorem nonOverlap_append (l : List ModuleData) (a : ModuleData)
    (h1 : NonOverlap l) (h2 : ∀ m ∈ l, collides a m = false) :
    NonOverlap (l ++ [a]) := by
  unfold NonOverlap at *
  rw [List.pairwise_append]
  refine ⟨h1, List.pairwise_singleton _ _, ?_⟩
  intro m hm b hb
  simp only [List.mem_singleton] at hb
  subst hb
  rw [collides_symm]
  exact h2 m hm

theorem nonOverlap_map_update (l : List ModuleData) (selId : String) (p : Vec3) (s : ℚ)
    (f : ModuleData → ModuleData)
    (hf1 : ∀ m ∈ l, m.id = selId → (f m).position = p ∧ (f m).scale = s)
    (hf2 : ∀ m, m.id ≠ selId → f m = m)
    (hids : NodupIds l) (hinv : NonOverlap l)
    (hguard : ∀ m ∈ l, m.id ≠ selId →
      checkAABBCollision p s m.position m.scale 2 = false) :
    NonOverlap (l.map f) := by
  unfold NonOverlap NodupIds at *
  rw [List.pairwise_map]
  have hne : l.Pairwise fun a b => a.id ≠ b.id := List.pairwise_map.mp hids
  refine (hinv.and hne).imp_of_mem ?_
  intro a b ha hb hab
  by_cases hA : a.id = selId
  · by_cases hB : b.id = selId
    · exact absurd (hA.trans hB.symm) hab.2
    · have hfa := hf1 a ha hA
      rw [hf2 b hB]
      show checkAABBCollision (f a).position (f a).scale b.position b.scale 2 = false
      rw [hfa.1, hfa.2]
      exact hguard b hb hB
  · by_cases hB : b.id = selId
    · have hfb := hf1 b hb hB
      rw [hf2 a hA]
      show checkAABBCollision a.position a.scale (f b).position (f b).scale 2 = false
      rw [hfb.1, hfb.2, checkAABBCollision_symm]
      exact hguard a ha hA
    · rw [hf2 a hA, hf2 b hB]
      exact hab.1

theorem nonOverlap_map_congr (l : List ModuleData) (f : ModuleData → ModuleData)
    (hf : ∀ m, (f m).position = m.position ∧ (f m).scale = m.scale)
    (hinv : NonOverlap l) : NonOverlap (l.map f) := by
  unfold NonOverlap at *
  rw [List.pairwise_map]
  refine hinv.imp ?_
  intro a b hab
  rw [collides_congr a (f a) b (f b) (hf a).1 (hf a).2 (hf b).1 (hf b).2]
  exact hab

/-! ### Claim theorems -/

/-- C1: starting from any layout that satisfies the non-overlap invariant
(and the data model's id uniqueness), every mutating operation of the
Layout Store — `addModule`, `deleteModule`, `updateModulePosition`,
`updateModuleRotation`, `updateModuleScale` — returns a layout satisfying
the non-overlap invariant; in particular every successful mutation does. -/
theorem layout_nonoverlap_invariant (st : DesignerState)
    (hinv : NonOverlap st.modules) (hids : NodupIds st.modules) :
    (∀ ty now, NonOverlap (addModule st ty now).modules) ∧
    (∀ targetId, NonOverlap (deleteModule st targetId).modules) ∧
    (∀ axis value, NonOverlap (updateModulePosition st axis value).modules) ∧
    (∀ axis degrees, NonOverlap (updateModuleRotation st axis degrees).modules) ∧
    (∀ s, NonOverlap (updateModuleScale st s).modules) := by
  refine ⟨?_, ?_, ?_, ?_, ?_⟩
  · intro ty now
    simp only [addModule]
    split
    · exact hinv
    · next hcol =>
      rw [Bool.not_eq_true, List.any_eq_false] at hcol
      apply nonOverlap_append _ _ hinv
      intro m hm
      have h := hcol m hm
      rw [Bool.not_eq_true] at h
      exact h
  · intro targetId
    exact List.Pairwise.filter _ hinv
  · intro axis value
    cases hfind : findSelected st with
    | none => simpa [updateModulePosition, hfind] using hinv
    | some sel =>
      simp only [updateModulePosition, hfind]
      split
      · exact hinv
      · next hcol =>
        rw [Bool.not_eq_true, List.any_eq_false] at hcol
        have hselmem : sel ∈ st.modules := List.mem_of_find?_eq_some hfind
        apply nonOverlap_map_update st.modules sel.id (sel.position.set axis value)
          sel.scale _ ?_ ?_ hids hinv ?_
        · intro m hm hmid
          have hms : m = sel :=
            List.inj_on_of_nodup_map hids hm hselmem hmid
          subst hms
          simp
        · intro m hmne
          simp [hmne]
        · intro m hm hmne
          have h := hcol m hm
          simp only [Bool.and_eq_true, decide_eq_true_eq, not_and] at h
          have h2 := h hmne
          rwa [Bool.not_eq_true] at h2
  · intro axis degrees
    cases hfind : findSelected st with
    | none => simpa [updateModuleRotation, hfind] using hinv
    | some sel =>
      simp only [updateModuleRotation, hfind]
      apply nonOverlap_map_congr _ _ ?_ hinv
      intro m
      split <;> exact ⟨rfl, rfl⟩
  · intro s
    cases hfind : findSelected st with
    | none => simpa [updateModuleScale, hfind] using hinv
    | some sel =>
      simp only [updateModuleScale, hfind]
      split
      · exact hinv
      · next hcol =>
        rw [Bool.not_eq_true, List.any_eq_false] at hcol
        have hselmem : sel ∈ st.modules := List.mem_of_find?_eq_some hfind
        apply nonOverlap_map_update st.modules sel.id sel.position s _ ?_ ?_ hids hinv ?_
        · intro m hm hmid
          have hms : m = sel :=
            List.inj_on_of_nodup_map hids hm hselmem hmid
          subst hms
          simp
        · intro m hmne
          simp [hmne]
        · intro m hm hmne
          have h := hcol m hm
          simp only [Bool.and_eq_true, decide_eq_true_eq, not_and] at h
          have h2 := h hmne
          rwa [Bool.not_eq_true] at h2

/-- Witness for C1: the invariant is preserved when an ECLSS module is
added to a concrete non-overlapping one-module layout. -/
theorem layout_nonoverlap_invariant_witness :
    NonOverlap (addModule demoState ModuleType.eclss 2).modules :=
  (layout_nonoverlap_invariant demoState (by decide) (by decide)).1 ModuleType.eclss 2

/-- C3: whenever the candidate geometry of `addModule`,
`updateModulePosition`, or `updateModuleScale` bounding-box-overlaps some
other existing module on all three axes, the operation reports the single
collision-error kind and the module list (hence every module's fields and
the insertion order) and the selection afterward equal those before the
call — no partial mutation. -/
theorem collision_error_atomicity (st : DesignerState) :
    (∀ ty now,
      (∃ m ∈ st.modules,
        checkAABBCollision ⟨0, 0, 0⟩ 1 m.position m.scale 2 = true) →
      (addModule st ty now).modules = st.modules ∧
      (addModule st ty now).selectedModuleId = st.selectedModuleId ∧
      (addModule st ty now).collisionError = some collisionMsg) ∧
    (∀ axis value sel, findSelected st = some sel →
      (∃ m ∈ st.modules, m.id ≠ sel.id ∧
        checkAABBCollision (sel.position.set axis value) sel.scale
          m.position m.scale 2 = true) →
      (updateModulePosition st axis value).modules = st.modules ∧
      (updateModulePosition st axis value).selectedModuleId = st.selectedModuleId ∧
      (updateModulePosition st axis value).collisionError = some collisionMsg) ∧
    (∀ s sel, findSelected st = some sel →
      (∃ m ∈ st.modules, m.id ≠ sel.id ∧
        checkAABBCollision sel.position s m.position m.scale 2 = true) →
      (updateModuleScale st s).modules = st.modules ∧
      (updateModuleScale st s).selectedModuleId = st.selectedModuleId ∧
      (updateModuleScale st s).collisionError = some collisionMsg) := by
  refine ⟨?_, ?_, ?_⟩
  · intro ty now hex
    obtain ⟨m, hm, hck⟩ := hex
    simp only [addModule]
    split
    · exact ⟨rfl, rfl, rfl⟩
    · next h =>
      exact absurd (List.any_eq_true.mpr ⟨m, hm, hck⟩) h
  · intro axis value sel hfind hex
    obtain ⟨m, hm, hne, hck⟩ := hex
    simp only [updateModulePosition, hfind]
    split
    · exact ⟨rfl, rfl, rfl⟩
    · next h =>
      refine absurd (List.any_eq_true.mpr ⟨m, hm, ?_⟩) h
      rw [Bool.and_eq_true]
      exact ⟨decide_eq_true hne, hck⟩
  · intro s sel hfind hex
    obtain ⟨m, hm, hne, hck⟩ := hex
    simp only [updateModuleScale, hfind]
    split
    · exact ⟨rfl, rfl, rfl⟩
    · next h =>
      refine absurd (List.any_eq_true.mpr ⟨m, hm, ?_⟩) h
      rw [Bool.and_eq_true]
      exact ⟨decide_eq_true hne, hck⟩

/-- Witness for C3: on a concrete two-module state all three guarded
operations fail atomically when their candidate geometry overlaps. -/
theorem collision_error_atomicity_witness :
    ((addModule demoTwoState ModuleType.lab 5).modules = demoTwoState.modules ∧
     (addModule demoTwoState ModuleType.lab 5).selectedModuleId =
       demoTwoState.selectedModuleId ∧
     (addModule demoTwoState ModuleType.lab 5).collisionError = some collisionMsg) ∧
    ((updateModulePosition demoTwoState Axis.x 9).modules = demoTwoState.modules ∧
     (updateModulePosition demoTwoState Axis.x 9).selectedModuleId =
       demoTwoState.selectedModuleId ∧
     (updateModulePosition demoTwoState Axis.x 9).collisionError = some collisionMsg) ∧
    ((updateModuleScale demoTwoState 10).modules = demoTwoState.modules ∧
     (updateModuleScale demoTwoState 10).selectedModuleId =
       demoTwoState.selectedModuleId ∧
     (updateModuleScale demoTwoState 10).collisionError = some collisionMsg) :=
  ⟨(collision_error_atomicity demoTwoState).1 ModuleType.lab 5
      ⟨demoOrigin, List.mem_cons_self _ _,
        by norm_num [demoOrigin, checkAABBCollision, ratAbs]⟩,
   (collision_error_atomicity demoTwoState).2.1 Axis.x 9 demoOrigin rfl
      ⟨demoFar, List.mem_cons_of_mem _ (List.mem_cons_self _ _), by decide,
        by norm_num [demoOrigin, demoFar, checkAABBCollision, ratAbs, Vec3.set]⟩,
   (collision_error_atomicity demoTwoState).2.2 10 demoOrigin rfl
      ⟨demoFar, List.mem_cons_of_mem _ (List.mem_cons_self _ _), by decide,
        by norm_num [demoOrigin, demoFar, checkAABBCollision, ratAbs]⟩⟩

/-- C4: when `updateModuleScale` succeeds (no collision at the candidate
scale), the selected module's scale becomes `s` and its cost, mass and
volume are recomputed by the exact cubic law from the type's static base
specification, not from the prior instance values. -/
theorem rescale_cubic_law (st : DesignerState) (sel : ModuleData) (s : ℚ)
    (hfind : findSelected st = some sel)
    (hok : ∀ m ∈ st.modules, m.id ≠ sel.id →
      checkAABBCollision sel.position s m.position m.scale 2 = false) :
    (∃ m ∈ (updateModuleScale st s).modules, m.id = sel.id) ∧
    ∀ m ∈ (updateModuleScale st s).modules, m.id = sel.id →
      m.scale = s ∧
      m.cost = (MODULE_SPECS sel.type).baseCost * s ^ 3 ∧
      m.mass = (MODULE_SPECS sel.type).baseMass * s ^ 3 ∧
      m.volume = (MODULE_SPECS sel.type).baseVolume * s ^ 3 := by
  have hselmem : sel ∈ st.modules := List.mem_of_find?_eq_some hfind
  have hguard : (st.modules.any fun m =>
      decide (m.id ≠ sel.id) &&
        checkAABBCollision sel.position s m.position m.scale 2) = false := by
    rw [List.any_eq_false]
    intro m hm
    by_cases hne : m.id = sel.id
    · simp [hne]
    · simp [hne, hok m hm hne]
  simp only [updateModuleScale, hfind]
  split
  · next h =>
    rw [hguard] at h
    simp at h
  · constructor
    · refine ⟨_, List.mem_map_of_mem _ hselmem, ?_⟩
      simp
    · intro m hm hmid
      rw [List.mem_map] at hm
      obtain ⟨m0, hm0, rfl⟩ := hm
      by_cases h0 : m0.id = sel.id
      · simp [h0]
      · rw [if_neg h0] at hmid
        exact absurd hmid h0

/-- Witness for C4: rescaling the selected origin dormitory to scale 2 in a
concrete two-module layout recomputes cost, mass and volume cubically. -/
theorem rescale_cubic_law_witness :
    (∃ m ∈ (updateModuleScale demoTwoState 2).modules, m.id = demoOrigin.id) ∧
    ∀ m ∈ (updateModuleScale demoTwoState 2).modules, m.id = demoOrigin.id →
      m.scale = 2 ∧
      m.cost = (MODULE_SPECS demoOrigin.type).baseCost * 2 ^ 3 ∧
      m.mass = (MODULE_SPECS demoOrigin.type).baseMass * 2 ^ 3 ∧
      m.volume = (MODULE_SPECS demoOrigin.type).baseVolume * 2 ^ 3 :=
  rescale_cubic_law demoTwoState demoOrigin 2 rfl (by
    intro m hm hne
    simp only [demoTwoState] at hm
    rcases List.mem_cons.mp hm with rfl | hm2
    · exact absurd rfl hne
    · rcases List.mem_cons.mp hm2 with rfl | hm3
      · norm_num [demoOrigin, demoFar, checkAABBCollision, ratAbs]
      · cases hm3)

/-- C5: when `addModule` succeeds, the new module is appended at the end of
the collection with all prior modules unchanged and in order, becomes the
selected module, carries position (0,0,0), rotation (0,0,0), scale 1 and
the type's base cost/mass/volume, and (given a fresh generated id) the ids
of the resulting layout are pairwise distinct. -/
theorem addModule_success_postcondition (st : DesignerState) (ty : ModuleType)
    (now : Nat)
    (hids : NodupIds st.modules)
    (hfresh : ∀ m ∈ st.modules, m.id ≠ mkId ty now)
    (hok : ∀ m ∈ st.modules,
      checkAABBCollision ⟨0, 0, 0⟩ 1 m.position m.scale 2 = false) :
    (addModule st ty now).modules = st.modules ++ [freshModule ty now] ∧
    (addModule st ty now).selectedModuleId = some (mkId ty now) ∧
    (freshModule ty now).position = ⟨0, 0, 0⟩ ∧
    (freshModule ty now).rotation = ⟨0, 0, 0⟩ ∧
    (freshModule ty now).scale = 1 ∧
    (freshModule ty now).cost = (MODULE_SPECS ty).baseCost ∧
    (freshModule ty now).mass = (MODULE_SPECS ty).baseMass ∧
    (freshModule ty now).volume = (MODULE_SPECS ty).baseVolume ∧
    (freshModule ty now).id = mkId ty now ∧
    NodupIds (addModule st ty now).modules := by
  have hguard : (st.modules.any fun m =>
      checkAABBCollision (freshModule ty now).position (freshModule ty now).scale
        m.position m.scale 2) = false := by
    rw [List.any_eq_false]
    intro m hm
    simp only [Bool.not_eq_true]
    exact hok m hm
  have hadd : addModule st ty now =
      { st with modules := st.modules ++ [freshModule ty now],
                selectedModuleId := some (freshModule ty now).id } := by
    simp only [addModule, hguard]
    simp
  rw [hadd]
  refine ⟨rfl, rfl, rfl, rfl, rfl, rfl, rfl, rfl, rfl, ?_⟩
  unfold NodupIds at *
  rw [List.map_append, List.nodup_append]
  refine ⟨hids, by simp, ?_⟩
  intro a ha hb
  simp only [List.map_cons, List.map_nil, List.mem_singleton] at hb
  rw [List.mem_map] at ha
  obtain ⟨m, hm, rfl⟩ := ha
  exact hfresh m hm hb

/-- Witness for C5: adding an ECLSS module to a concrete one-module layout
(dormitory at x = 10) appends the fresh module and selects it. -/
theorem addModule_success_postcondition_witness :
    (addModule demoState ModuleType.eclss 7).modules =
      demoState.modules ++ [freshModule ModuleType.eclss 7] ∧
    (addModule demoState ModuleType.eclss 7).selectedModuleId =
      some (mkId ModuleType.eclss 7) ∧
    (freshModule ModuleType.eclss 7).position = ⟨0, 0, 0⟩ ∧
    (freshModule ModuleType.eclss 7).rotation = ⟨0, 0, 0⟩ ∧
    (freshModule ModuleType.eclss 7).scale = 1 ∧
    (freshModule ModuleType.eclss 7).cost = (MODULE_SPECS ModuleType.eclss).baseCost ∧
    (freshModule ModuleType.eclss 7).mass = (MODULE_SPECS ModuleType.eclss).baseMass ∧
    (freshModule ModuleType.eclss 7).volume = (MODULE_SPECS ModuleType.eclss).baseVolume ∧
    (freshModule ModuleType.eclss 7).id = mkId ModuleType.eclss 7 ∧
    NodupIds (addModule demoState ModuleType.eclss 7).modules :=
  addModule_success_postcondition demoState ModuleType.eclss 7
    (by decide) (by decide) (by
      intro m hm
      simp only [demoState] at hm
      rcases List.mem_cons.mp hm with rfl | hm2
      · norm_num [demoModule, checkAABBCollision, ratAbs]
      · cases hm2)

/-- C2: `checkAABBCollision` returns true iff on all three axes
simultaneously the center distance is below `(E*s1 + E*s2)/2` with the
fixed edge constant `E = 2`; the predicate is symmetric in its two module
arguments, and its result is unchanged under arbitrary rotations of either
module. -/
theorem checkAABBCollision_spec :
    (∀ (p1 : Vec3) (s1 : ℚ) (p2 : Vec3) (s2 : ℚ),
      checkAABBCollision p1 s1 p2 s2 2 = true ↔
        (|p1.x - p2.x| < (2 * s1 + 2 * s2) / 2 ∧
         |p1.y - p2.y| < (2 * s1 + 2 * s2) / 2 ∧
         |p1.z - p2.z| < (2 * s1 + 2 * s2) / 2)) ∧
    (∀ (p1 : Vec3) (s1 : ℚ) (p2 : Vec3) (s2 : ℚ),
      checkAABBCollision p1 s1 p2 s2 2 = checkAABBCollision p2 s2 p1 s1 2) ∧
    (∀ (m1 m2 : ModuleData) (r1 r2 : Vec3),
      collides { m1 with rotation := r1 } { m2 with rotation := r2 } =
        collides m1 m2) := by
  refine ⟨?_, ?_, ?_⟩
  · intro p1 s1 p2 s2
    have h : (2 * s1 + 2 * s2) / 2 = 2 * s1 / 2 + 2 * s2 / 2 := by ring
    rw [h]
    simp [checkAABBCollision, ratAbs_eq_abs, and_assoc]
  · intro p1 s1 p2 s2
    simp only [checkAABBCollision, ratAbs_eq_abs]
    rw [abs_sub_comm p1.x p2.x, abs_sub_comm p1.y p2.y, abs_sub_comm p1.z p2.z,
        add_comm (2 * s1 / 2) (2 * s2 / 2)]
  · intro m1 m2 r1 r2
    rfl

/-- C6: hardware cost is the sum of module costs; total mass is the fixed
base structural mass 10000 kg plus the sum of module masses; launch cost is
`totalMass * 75000 / 1000000` (millions); total mission cost is hardware
plus launch cost; total habitable volume is the sum of module volumes.  In
the spec §8 scenario (a dormitory and an ECLSS module placed apart at
scale 1) the aggregates are 195, 10000 + 20000 and 200. -/
theorem derived_cost_mass_metrics :
    (∀ ms : List ModuleData,
      totalHardwareCost ms = (ms.map fun m => m.cost).sum ∧
      totalMass ms = 10000 + (ms.map fun m => m.mass).sum ∧
      totalLaunchCost ms = totalMass ms * 75000 / 1000000 ∧
      totalCost ms = totalHardwareCost ms + totalLaunchCost ms ∧
      totalVolume ms = (ms.map fun m => m.volume).sum) ∧
    totalHardwareCost scenarioState.modules = 195 ∧
    totalMass scenarioState.modules = 10000 + 20000 ∧
    totalVolume scenarioState.modules = 200 := by
  have hfold : ∀ (g : ModuleData → ℚ) (ms : List ModuleData) (a : ℚ),
      ms.foldl (fun sum m => sum + g m) a = a + (ms.map g).sum := by
    intro g ms
    induction ms with
    | nil => simp
    | cons m tail ih => intro a; simp [ih, add_assoc]
  refine ⟨?_, ?_, ?_, ?_⟩
  · intro ms
    refine ⟨?_, ?_, rfl, rfl, ?_⟩
    · rw [totalHardwareCost, hfold, zero_add]
    · rw [totalMass, hfold, zero_add]
      rfl
    · rw [totalVolume, hfold, zero_add]
  · norm_num [scenarioState, initialState, addModule, updateModulePosition,
      findSelected, freshModule, mkId, typeKey, checkAABBCollision, ratAbs,
      Vec3.set, totalHardwareCost, MODULE_SPECS]
  · norm_num [scenarioState, initialState, addModule, updateModulePosition,
      findSelected, freshModule, mkId, typeKey, checkAABBCollision, ratAbs,
      Vec3.set, totalMass, BASE_HABITAT_MASS, MODULE_SPECS]
  · norm_num [scenarioState, initialState, addModule, updateModulePosition,
      findSelected, freshModule, mkId, typeKey, checkAABBCollision, ratAbs,
      Vec3.set, totalVolume, MODULE_SPECS]

/-- C7: the radiation shielding check passes iff
`moduleCount * 15 + totalMass / 1000 ≥ 200`; the structural load check
passes iff `(totalMass / 100) * 1.5 ≤ 350`; the NHV check passes iff total
volume ≥ 115.83 — a layout with total volume exactly 115.83 passes, one
with 115.82 fails, and the empty layout fails.  All three checks are total
functions, defined on every layout including the empty one. -/
theorem compliance_checks_spec :
    (∀ ms : List ModuleData,
      ((radiationShielding ms).pass = true ↔
        (ms.length : ℚ) * 15 + totalMass ms / 1000 ≥ 200) ∧
      ((structuralLoad ms).pass = true ↔ totalMass ms / 100 * (3 / 2) ≤ 350) ∧
      ((nhvCompliance ms).pass = true ↔ totalVolume ms ≥ 11583 / 100)) ∧
    (nhvCompliance [probeModule 5000 (11583 / 100)]).pass = true ∧
    totalVolume [probeModule 5000 (11583 / 100)] = 11583 / 100 ∧
    (nhvCompliance [probeModule 5000 (11582 / 100)]).pass = false ∧
    totalVolume [probeModule 5000 (11582 / 100)] = 11582 / 100 ∧
    (nhvCompliance []).pass = false ∧
    totalVolume [] = 0 := by
  refine ⟨?_, ?_, ?_, ?_, ?_, ?_, rfl⟩
  · intro ms
    refine ⟨?_, ?_, ?_⟩
    · simp [radiationShielding]
    · simp [structuralLoad]
    · simp [nhvCompliance]
  · norm_num [nhvCompliance, totalVolume, probeModule]
  · norm_num [totalVolume, probeModule]
  · norm_num [nhvCompliance, totalVolume, probeModule]
  · norm_num [totalVolume, probeModule]
  · norm_num [nhvCompliance, totalVolume]

/-- C8: the transit vehicle is selected by the threshold rule
`totalMass > 50000` (strictly greater than) between exactly two fixed
labels; a layout of total mass 50000 gets the smaller-lift label
"Ares V Heavy Lift" and one of total mass 50001 gets the heavy-lift label
"Starship HLS Variant". -/
theorem logistics_vehicle_selection :
    (∀ ms : List ModuleData,
      (logistics ms).vehicle =
        if totalMass ms > 50000 then starshipLabel else aresLabel) ∧
    starshipLabel ≠ aresLabel ∧
    (∀ ms : List ModuleData,
      (logistics ms).vehicle = aresLabel ∨ (logistics ms).vehicle = starshipLabel) ∧
    totalMass [probeModule 40000 60] = 50000 ∧
    (logistics [probeModule 40000 60]).vehicle = aresLabel ∧
    totalMass [probeModule 40001 60] = 50001 ∧
    (logistics [probeModule 40001 60]).vehicle = starshipLabel := by
  refine ⟨fun ms => rfl, by decide, ?_, ?_, ?_, ?_, ?_⟩
  · intro ms
    by_cases h : totalMass ms > 50000
    · right
      simp [logistics, h]
    · left
      simp [logistics, h]
  · norm_num [totalMass, probeModule, BASE_HABITAT_MASS]
  · norm_num [logistics, totalMass, probeModule, BASE_HABITAT_MASS]
  · norm_num [totalMass, probeModule, BASE_HABITAT_MASS]
  · norm_num [logistics, totalMass, probeModule, BASE_HABITAT_MASS]

/-- C9: saving a layout and then loading the saved record into any state
reproduces exactly the saved module list (same ids, types, positions,
rotations, scales, in order), replacing the in-memory layout wholesale,
and always resets the selection to none. -/
theorem save_load_roundtrip :
    ∀ (st other : DesignerState) (ts : String),
      (loadDesign other (some (saveDesign st ts))).modules = st.modules ∧
      (loadDesign other (some (saveDesign st ts))).selectedModuleId = none := by
  intro st other ts
  exact ⟨rfl, rfl⟩

/-- C10: `deleteModule id` removes the module with that id unconditionally
(no collision check), preserving all other modules and their order;
deleting the selected module clears the selection and deleting a
non-selected module preserves it; if no module has the id the module list
is unchanged; and the operation is idempotent on the whole state. -/
theorem deleteModule_semantics :
    ∀ (st : DesignerState) (targetId : String),
      (∀ m ∈ (deleteModule st targetId).modules, m.id ≠ targetId) ∧
      (deleteModule st targetId).modules.Sublist st.modules ∧
      (∀ m ∈ st.modules, m.id ≠ targetId → m ∈ (deleteModule st targetId).modules) ∧
      (st.selectedModuleId = some targetId →
        (deleteModule st targetId).selectedModuleId = none) ∧
      (st.selectedModuleId ≠ some targetId →
        (deleteModule st targetId).selectedModuleId = st.selectedModuleId) ∧
      ((∀ m ∈ st.modules, m.id ≠ targetId) →
        (deleteModule st targetId).modules = st.modules) ∧
      deleteModule (deleteModule st targetId) targetId = deleteModule st targetId := by
  intro st targetId
  refine ⟨?_, ?_, ?_, ?_, ?_, ?_, ?_⟩
  · intro m hm
    simp only [deleteModule, List.mem_filter, decide_eq_true_eq] at hm
    exact hm.2
  · exact List.filter_sublist _
  · intro m hm hne
    simp only [deleteModule, List.mem_filter, decide_eq_true_eq]
    exact ⟨hm, hne⟩
  · intro h
    simp [deleteModule, h]
  · intro h
    simp [deleteModule, h]
  · intro h
    simp only [deleteModule]
    rw [List.filter_eq_self.mpr]
    intro m hm
    simp [h m hm]
  · simp only [deleteModule, List.filter_filter]
    by_cases h : st.selectedModuleId = some targetId <;>
      simp [h, Bool.and_self]

/-- Witness for C10: deleting the selected dormitory from a concrete state
clears the selection; deleting a non-selected module preserves the
selection; and deleting an absent id leaves the module list unchanged. -/
theorem deleteModule_semantics_witness :
    (deleteModule demoState demoModule.id).selectedModuleId = none ∧
    (deleteModule demoTwoState demoFar.id).selectedModuleId =
      demoTwoState.selectedModuleId ∧
    (deleteModule demoTwoState (mkId ModuleType.greenhouse 9)).modules =
      demoTwoState.modules :=
  ⟨(deleteModule_semantics demoState demoModule.id).2.2.2.1 rfl,
   (deleteModule_semantics demoTwoState demoFar.id).2.2.2.2.1 (by decide),
   (deleteModule_semantics demoTwoState (mkId ModuleType.greenhouse 9)).2.2.2.2.2.1
     (by decide)⟩

end MarsArchitect
